import Mathlib

/-!
Verification of the dbus-broker launcher orchestration engine
(`src/src/util/test-error.c`, the launcher translation unit) against its
natural-language specification.  The C code is shallowly embedded: pure
message construction becomes Lean functions on explicit data, the mutable
Manager becomes an explicit state record, and the straight-line teardown
and bootstrap sequences become explicit traces.
-/

namespace DBusLaunch

/-! ## Decimal rendering of service ids

`service_new` renders the id with `sprintf(service->id, "%PRIu64", ++manager->service_ids)`.
We model the decimal rendering directly: most-significant digit first.
-/

/-- The ASCII character of a decimal digit, as produced by `sprintf` with a
`%u`-style conversion (digit `d` becomes the character of code `48 + d`). -/
def decChar (d : Nat) : Char := Char.ofNat (48 + d)

/-- Fuel-based digit extraction (the fuel only drives structural
termination; `decDigits` always supplies enough). -/
def decDigitsCore : Nat → Nat → List Char
  | 0, _ => []
  | fuel + 1, n =>
    if n < 10 then [decChar n]
    else decDigitsCore fuel (n / 10) ++ [decChar (n % 10)]

/-- The list of decimal digit characters of `n`, most significant first;
this is the character sequence `sprintf("%PRIu64")` writes. -/
def decDigits (n : Nat) : List Char := decDigitsCore (n + 1) n

/-- The decimal string of `n`: the model of `sprintf("%PRIu64", n)` used for
`Service.id` in `service_new`. -/
def sprintf_u64 (n : Nat) : String := List.asString (decDigits n)

/-- Numeric value of a digit character (inverse of `decChar` on digits). -/
def charVal (c : Char) : Nat := c.toNat - 48

/-- Numeric value of a digit-character list, most significant first. -/
def decVal (l : List Char) : Nat := l.foldl (fun a c => 10 * a + charVal c) 0

/-! ## The service registry

`struct Service` (name, optional unit, optional exec argv, id) and the
`Manager`'s registry.  The C keeps services in a red-black tree keyed by
`strcmp` on the id and only ever observes it through `c_rbtree_find_entry`
(lookup by id); we model the container as a list in registration order with
lookup by id, which has the same observable behaviour because ids are unique.
The `exec` pointer may be NULL in C, so it is an `Option`; a present exec of
`n_exec` entries is the corresponding list.
-/

structure Service where
  id : String
  name : String
  unit : Option String
  exec : Option (List String)
deriving Repr, DecidableEq

/-- The Manager state the registry claims depend on: the service container
and the monotonically increasing id counter `service_ids` (zero-initialised
by `calloc` in `manager_new`). -/
structure ManagerState where
  services : List Service
  service_ids : Nat
deriving Repr, DecidableEq

/-- The freshly constructed Manager of `manager_new`: `calloc` zeroes the
registry and the `service_ids` counter. -/
def manager_new : ManagerState := { services := [], service_ids := 0 }

/-- `service_new` (src lines 156-199): increments `manager->service_ids`,
renders the incremented counter as the decimal id, copies name/unit/exec,
and links the service into the registry. -/
def service_new (m : ManagerState) (name : String) (unit : Option String)
    (exec : Option (List String)) : ManagerState × Service :=
  let n := m.service_ids + 1
  let s : Service := { id := sprintf_u64 n, name := name, unit := unit, exec := exec }
  ({ services := m.services ++ [s], service_ids := n }, s)

/-- `c_rbtree_find_entry` with `service_compare` (strcmp on the id):
lookup by id. -/
def service_lookup (m : ManagerState) (id : String) : Option Service :=
  m.services.find? (fun s => s.id == id)

/-! ## Outgoing messages on the regular link

The launcher only ever sends three shapes of message to the service manager
over `bus_regular`: the `ActivationRequest` signal
(`manager_request_activation`), the `StartTransientUnit` method call
(`manager_start_transient_unit`) and the `SetEnvironment` method call
(`manager_on_set_activation_environment`).  All three are sent with
`sd_bus_send(bus, msg, NULL)`: fire-and-forget, no reply slot.
-/

/-- One `(path, argv, ignore_failure)` entry of the `a(sasb)` ExecStart
value in `StartTransientUnit`. -/
structure ExecStartEntry where
  path : String
  argv : List String
  ignore_failure : Bool
deriving Repr, DecidableEq

/-- The logical body of the `StartTransientUnit` method call:
`(unit name, mode, properties, auxiliary units)`.  Each property is a
`(key, variant)` pair whose variant here is always the `a(sasb)` ExecStart
list; the auxiliary-units argument `a(sa(sv))` is modelled as a list of
`(unit name, properties)` pairs. -/
structure TransientUnit where
  unit : String
  mode : String
  properties : List (String × List ExecStartEntry)
  aux : List (String × List String)
deriving Repr, DecidableEq

/-- The payload of an outgoing message on the regular link. -/
inductive Msg where
  /-- The `org.freedesktop.systemd1.Activator.ActivationRequest` signal on
  object `/org/freedesktop/DBus`, destination `org.freedesktop.systemd1`,
  with the unit name as its single string argument. -/
  | activationRequest (unit : String)
  /-- The `org.freedesktop.systemd1.Manager.StartTransientUnit` method call
  on object `/org/freedesktop/systemd1`, destination
  `org.freedesktop.systemd1`. -/
  | startTransientUnit (call : TransientUnit)
  /-- The `org.freedesktop.systemd1.Manager.SetEnvironment` method call on
  object `/org/freedesktop/systemd1`, destination `org.freedesktop.systemd1`,
  with one `as` argument of assignment strings. -/
  | setEnvironment (assignments : List String)
deriving Repr, DecidableEq

/-- An outgoing message together with its send discipline:
`awaitsReply = false` models `sd_bus_send(bus, m, NULL)` (fire-and-forget),
`awaitsReply = true` models the synchronous `sd_bus_call`. -/
structure Outbound where
  msg : Msg
  awaitsReply : Bool
deriving Repr, DecidableEq

/-- `manager_request_activation` (src lines 387-411): builds the
`ActivationRequest` signal naming `unit` and sends it fire-and-forget. -/
def manager_request_activation (_name unit : String) : List Outbound :=
  [{ msg := .activationRequest unit, awaitsReply := false }]

/-- `manager_start_transient_unit` (src lines 413-522): unit name
`dbus-<name>.service` (from `asprintf`), mode `"fail"`, one `ExecStart`
property whose `a(sasb)` value is the single entry
`(exec[0], exec, true)`, and an empty auxiliary-units list.
`exec.headI` models the C read of `exec[0]` (meaningful only when the exec
array is non-empty, as every exec-bearing service is). -/
def manager_start_transient_unit (name : String) (exec : List String) : TransientUnit :=
  { unit := "dbus-" ++ name ++ ".service"
  , mode := "fail"
  , properties := [("ExecStart", [{ path := exec.headI, argv := exec, ignore_failure := true }])]
  , aux := [] }

/-- Result of one incoming-message handler: the messages sent on the
regular link, the C return value, and whether the handler printed the
unconditional stderr diagnostic (the verbose-only prints are not part of
this flag). -/
structure HandlerResult where
  sent : List Outbound
  ret : Int
  logged : Bool
deriving Repr, DecidableEq

/-- `manager_on_name_activate` (src lines 524-552): look the id up in the
registry; unknown ids are logged and succeed with no send; a service whose
name is the service manager's own identity is silently ignored; otherwise
a set unit field selects the `ActivationRequest` signal and only an unset
unit field selects the `StartTransientUnit` call built from the exec array
(a NULL exec pointer reads as the empty array). -/
def manager_on_name_activate (m : ManagerState) (id : String) : HandlerResult :=
  match service_lookup m id with
  | none => { sent := [], ret := 0, logged := true }
  | some s =>
    if s.name = "org.freedesktop.systemd1" then
      { sent := [], ret := 0, logged := false }
    else
      match s.unit with
      | some u => { sent := manager_request_activation s.name u, ret := 0, logged := false }
      | none =>
        { sent := [{ msg := .startTransientUnit (manager_start_transient_unit s.name (s.exec.getD [])), awaitsReply := false }]
        , ret := 0, logged := false }

/-- The assignment strings built by the read loop of
`manager_on_set_activation_environment`: each `{key, value}` dict entry of
the inbound message, in wire order, becomes `key ++ "=" ++ value`
(the `asprintf("%s=%s", key, value)` of the loop body). -/
def set_env_assignments : List (String × String) → List String
  | [] => []
  | kv :: rest => (kv.1 ++ "=" ++ kv.2) :: set_env_assignments rest

/-- `manager_on_set_activation_environment` (src lines 554-604): builds one
`SetEnvironment` method call whose single argument is the assignment list in
the inbound mapping's wire order, and sends it fire-and-forget. -/
def manager_on_set_activation_environment (env : List (String × String)) : List Outbound :=
  [{ msg := .setEnvironment (set_env_assignments env), awaitsReply := false }]

/-! ## Service-definition loading -/

/-- The values `manager_load_service` extracts from one service file via
GKeyFile: `loadable` is whether `g_key_file_load_from_file` succeeded, and
the four keys of the `D-BUS Service` section (`NULL` results are `none`;
`Exec` is the space-split argv list). -/
structure ServiceFile where
  loadable : Bool
  name : Option String
  user : Option String
  unit : Option String
  exec : Option (List String)
deriving Repr, DecidableEq

/-- How `manager_load_service` disposed of one definition. -/
inductive LoadOutcome where
  /-- `g_key_file_load_from_file` failed: logged, `r = 0`, skipped. -/
  | skippedUnloadable
  /-- no `Name` key: logged, `r = 0`, skipped. -/
  | skippedMissingName
  /-- neither `SystemdService` nor `Exec`: logged, `r = 0`, skipped. -/
  | skippedMissingUnitExec
  /-- a Service was constructed and registered (and announced with the
  `AddName` controller call). -/
  | registered (s : Service)
deriving Repr, DecidableEq

/-- `manager_load_service` (src lines 627-719), restricted to its effect on
the registry: unreadable files, files without `Name`, and files with
neither `SystemdService` nor `Exec` are skipped with a diagnostic and
return 0; otherwise `service_new` constructs the Service from the name and
whatever of unit/exec is present. -/
def manager_load_service (m : ManagerState) (f : ServiceFile) :
    ManagerState × LoadOutcome :=
  if f.loadable = false then (m, .skippedUnloadable)
  else
    match f.name with
    | none => (m, .skippedMissingName)
    | some nm =>
      if f.unit = none ∧ f.exec = none then (m, .skippedMissingUnitExec)
      else
        let p := service_new m nm f.unit f.exec
        (p.1, .registered p.2)

/-- Registering a sequence of definitions with `service_new`, in order
(the load loop of `manager_load_services`); each definition is
`(name, unit, exec)`. -/
def register_all : ManagerState → List (String × Option String × Option (List String)) →
    ManagerState
  | m, [] => m
  | m, d :: ds => register_all (service_new m d.1 d.2.1 d.2.2).1 ds

/-! ## Manager teardown -/

/-- One observable step of `manager_free`. -/
inductive TeardownStep where
  /-- `service_free` of one registry entry (the unlink loop). -/
  | freeService (id : String)
  /-- `c_close(manager->fd_listen)`. -/
  | closeListener
  /-- `bus_close_unref(manager->bus_regular)`. -/
  | closeRegular
  /-- `bus_close_unref(manager->bus_controller)`. -/
  | closeController
  /-- `sd_event_unref(manager->event)`. -/
  | unrefEvent
deriving Repr, DecidableEq

/-- The kind of a teardown step, with all registry releases collapsed into
one kind, matching the granularity of the specification sentence. -/
inductive TeardownKind where
  | dropRegistry
  | closeListener
  | closeRegular
  | closeController
  | unrefEvent
deriving Repr, DecidableEq

def stepKind : TeardownStep → TeardownKind
  | .freeService _ => .dropRegistry
  | .closeListener => .closeListener
  | .closeRegular => .closeRegular
  | .closeController => .closeController
  | .unrefEvent => .unrefEvent

/-- `manager_free` (src lines 201-217) as the trace of its statements, in
program order: a NULL manager is a no-op; otherwise the registry unlink
loop frees every service, then the listener descriptor is closed, then the
regular bus, then the controller bus, then the event loop is released. -/
def manager_free_trace : Option ManagerState → List TeardownStep
  | none => []
  | some m =>
    (m.services.map (fun s => .freeService s.id)) ++
      [.closeListener, .closeRegular, .closeController, .unrefEvent]

/-- Modelled from the spec (for comparison only): the teardown order the
specification sentence claims — regular connection, controller connection,
listener descriptor, registry. -/
def spec_claimed_teardown_order : List TeardownKind :=
  [.closeRegular, .closeController, .closeListener, .dropRegistry]

/-! ## Listener acquisition by path -/

/-- `sizeof(((struct sockaddr_un *)0)->sun_path)` on Linux. -/
def sun_path_size : Nat := 108

/-- Outcome of `manager_listen_path`. -/
inductive ListenPathResult where
  /-- socket bound at `path` and listening with the given backlog. -/
  | bound (path : String) (backlog : Nat)
  /-- the `memcpy(addr.sun_path, path, strlen(path))` wrote `written` bytes
  into the `bufSize`-byte `sun_path` array: an out-of-bounds write. -/
  | oobWrite (written bufSize : Nat)
deriving Repr, DecidableEq

/-- `manager_listen_path` (src lines 295-319): the C copies `strlen(path)`
bytes into the fixed 108-byte `sun_path` with **no length check** and then
binds and listens with backlog 256.  The case split below is not a check in
the code; it is the semantics of that unchecked `memcpy`: a path longer
than the buffer is an out-of-bounds write, anything else is copied whole
and bound. -/
def manager_listen_path (path : String) : ListenPathResult :=
  if path.length ≤ sun_path_size then .bound path 256
  else .oobWrite path.length sun_path_size

/-! ## Listener path selection in run() -/

/-- The command-line state relevant to path selection: `main_arg_listen`
and `main_arg_scope`. -/
structure Args where
  listen : Option String
  scope : String
deriving Repr, DecidableEq

/-- The process environment consulted by `run()`. -/
structure Env where
  xdg_runtime_dir : Option String
  uid : Nat
deriving Repr, DecidableEq

/-- The two local path variables of `run()` after its selection if-chain:
`const char *path` (NULL-initialised) and the `asprintf`-allocated
`listen_path`. -/
structure PathSel where
  path : Option String
  listen_path : Option String
deriving Repr, DecidableEq

/-- The listener path the user-scope branch of `run()` derives (src lines
1026-1030): `$XDG_RUNTIME_DIR/bus` when the variable is set, else
`/var/run/user/<uid>/bus`. -/
def user_scope_derived_path (e : Env) : String :=
  match e.xdg_runtime_dir with
  | some t => t ++ "/bus"
  | none => "/var/run/user/" ++ sprintf_u64 e.uid ++ "/bus"

/-- The path-selection if-chain of `run()` (src lines 1023-1037), exactly as
written: an explicit `--listen` sets `path`; user scope allocates the
derived path into `listen_path` but assigns nothing to `path`; system scope
sets `path` to the fixed system socket; any other scope is
`-ENOTRECOVERABLE` (-131). -/
def run_select_path (a : Args) (e : Env) : Except Int PathSel :=
  match a.listen with
  | some l => .ok { path := some l, listen_path := none }
  | none =>
    if a.scope = "user" then
      .ok { path := none, listen_path := some (user_scope_derived_path e) }
    else if a.scope = "system" then
      .ok { path := some "/var/run/dbus/system_bus_socket", listen_path := none }
    else
      .error (-131)

/-- What `run()` does next with the selected `path` (src lines 1039-1070). -/
inductive ListenDispatch where
  /-- `strcmp(path, "inherit")` with `path == NULL`: undefined behaviour
  (NULL dereference); no listener is acquired. -/
  | nullDeref
  /-- `manager_listen_inherit`. -/
  | inherit
  /-- (optional forced unlink, then) `manager_listen_path(manager, p)`. -/
  | bindPath (p : String)
  /-- `"Invalid listener socket"` diagnostic, `MAIN_FAILED`. -/
  | invalidPath (p : String)
deriving Repr, DecidableEq

/-- The dispatch on `path` in `run()`: literal `"inherit"` selects the
inherited listener, an absolute path is bound, anything else is rejected;
a NULL `path` is dereferenced by `strcmp`. -/
def run_listen_dispatch (sel : PathSel) : ListenDispatch :=
  match sel.path with
  | none => .nullDeref
  | some p =>
    if p = "inherit" then .inherit
    else if p.startsWith "/" then .bindPath p
    else .invalidPath p

/-! ## Child exit and the launcher's exit status -/

/-- `CLD_EXITED` from `<signal.h>`. -/
def CLD_EXITED : Nat := 1

/-- The fields of `siginfo_t` read by `manager_on_child_exit`. -/
structure SigInfo where
  si_code : Nat
  si_status : Nat
deriving Repr, DecidableEq

/-- `manager_on_child_exit` (src lines 360-366): the code passed to
`sd_event_exit` — the child's exit status when it exited normally,
`EXIT_FAILURE` (1) for every other termination mode. -/
def manager_on_child_exit (si : SigInfo) : Nat :=
  if si.si_code = CLD_EXITED then si.si_status else 1

def MAIN_EXIT : Int := 1
def MAIN_FAILED : Int := 2

/-- How `manager_run` (src lines 926-932) maps the event loop's exit code:
negative codes are propagated as errors, positive codes collapse to
`MAIN_FAILED`, zero is success. -/
def manager_run_exit (loopExit : Int) : Int :=
  if loopExit < 0 then loopExit
  else if loopExit > 0 then MAIN_FAILED
  else 0

/-- `main`'s terminal mapping (src line 1109):
`(r == 0 || r == MAIN_EXIT) ? 0 : 1`. -/
def main_exit_status (r : Int) : Nat :=
  if r = 0 ∨ r = MAIN_EXIT then 0 else 1

/-- The tail of `run()` (src lines 1072-1084): `error_trace` is the
identity on `manager_run`'s result, and then, when the listener was bound
at a filesystem path (`unlink_path` set — the default for both scopes),
`r = unlink(unlink_path)` **overwrites** that result: a clean unlink makes
`run()` return 0 whatever `manager_run` returned, and a failing unlink
returns `error_origin(-errno)`.  `unlinkErr = none` models a successful
unlink, `some e` a failure with `errno = e`.  With an inherited listener
(`unlink_path == NULL`) the result passes through unchanged. -/
def run_exit (loopExit : Int) (pathBound : Bool) (unlinkErr : Option Nat) : Int :=
  if pathBound then
    match unlinkErr with
    | none => 0
    | some e => -(e : Int)
  else manager_run_exit loopExit

/-- The launcher's own process exit status as a function of the child's
termination record and the listener configuration:
`manager_on_child_exit` stops the loop with its code, `manager_run` maps
the loop result, `run` either passes it through (inherited listener) or
overwrites it with the socket-path unlink result (path-bound listener),
and `main` maps the final value to the process status. -/
def launcher_exit_status (si : SigInfo) (pathBound : Bool) (unlinkErr : Option Nat) : Nat :=
  main_exit_status (run_exit ((manager_on_child_exit si : Nat) : Int) pathBound unlinkErr)

/-! ## Helper lemmas on the decimal rendering -/

theorem charVal_decChar : ∀ d, d < 10 → charVal (decChar d) = d := by decide

theorem decVal_append_singleton (l : List Char) (c : Char) :
    decVal (l ++ [c]) = 10 * decVal l + charVal c := by
  simp [decVal, List.foldl_append]

theorem decVal_decDigitsCore (fuel n : Nat) (hf : n < fuel) :
    decVal (decDigitsCore fuel n) = n := by
  induction fuel generalizing n with
  | zero => omega
  | succ f ih =>
    rw [decDigitsCore]
    by_cases h : n < 10
    · simp only [h, if_pos]
      simp [decVal, charVal_decChar n h]
    · simp only [h, if_neg, not_false_iff]
      have hlt : n / 10 < f := by
        have hd : n / 10 < n := Nat.div_lt_self (by omega) (by omega)
        omega
      rw [decVal_append_singleton, ih (n / 10) hlt,
        charVal_decChar (n % 10) (Nat.mod_lt n (by omega))]
      omega

/-- Parsing the rendered digits of `n` gives back `n`: the decimal
rendering of `service_new` is faithful. -/
theorem decVal_decDigits (n : Nat) : decVal (decDigits n) = n :=
  decVal_decDigitsCore (n + 1) n (Nat.lt_succ_self n)

/-- Distinct counters render to distinct id strings. -/
theorem sprintf_u64_injective : Function.Injective sprintf_u64 := by
  intro a b h
  have hd : decDigits a = decDigits b := by
    simpa [sprintf_u64, List.asString] using congrArg String.data h
  have ha := decVal_decDigits a
  have hb := decVal_decDigits b
  rw [← ha, ← hb, hd]

/-- General shape of a registration run started from any Manager state:
the new ids continue the counter in order, and the counter advances by the
number of definitions. -/
theorem register_all_characterisation (defs : List (String × Option String × Option (List String)))
    (m : ManagerState) :
    (register_all m defs).services.map (fun s => s.id) =
        m.services.map (fun s => s.id) ++
          (List.range defs.length).map (fun i => sprintf_u64 (m.service_ids + i + 1)) ∧
    (register_all m defs).service_ids = m.service_ids + defs.length := by
  induction defs generalizing m with
  | nil => simp [register_all]
  | cons d ds ih =>
    rw [register_all]
    have hstep : (service_new m d.1 d.2.1 d.2.2).1 =
        { services := m.services ++
            [{ id := sprintf_u64 (m.service_ids + 1), name := d.1, unit := d.2.1, exec := d.2.2 }],
          service_ids := m.service_ids + 1 } := rfl
    rw [hstep]
    obtain ⟨h1, h2⟩ := ih (service_new m d.1 d.2.1 d.2.2).1
    rw [hstep] at h1 h2
    dsimp only at h1 h2
    refine ⟨?_, ?_⟩
    · rw [h1]
      simp only [List.map_append, List.map_cons, List.map_nil, List.length_cons,
        List.range_succ_eq_map, List.map_map, List.append_assoc, List.cons_append,
        List.nil_append]
      congr 2
      apply List.map_congr_left
      intro i _
      simp only [Function.comp]
      congr 1
      omega
    · rw [h2]
      simp only [List.length_cons]
      omega

/-! ## The claims -/

set_option maxRecDepth 4096 in
/-- Claim C1 (code evaluation): `manager_listen_path` performs no
address-length check — a 200-byte path is copied whole into the 108-byte
`sun_path`, an out-of-bounds write rather than a rejection — while a path
below the limit is bound with a listen backlog of exactly 256. -/
theorem claim_C1_code_eval :
    manager_listen_path (List.asString (List.replicate 200 (Char.ofNat 97))) =
      .oobWrite 200 108 ∧
    manager_listen_path "/tmp/bus" = .bound "/tmp/bus" 256 := by
  exact ⟨by decide, rfl⟩

/-- Claim C2 (code evaluation): with scope `user` and no `--listen`
argument, `run()` derives the listener path from the runtime directory
(`$XDG_RUNTIME_DIR/bus`, or `/var/run/user/<uid>/bus` when unset) into
`listen_path`, but never assigns it to the `path` variable the rest of the
function consults: `path` stays NULL and the subsequent
`strcmp(path, "inherit")` dereferences NULL, so the listener is not
acquired at the derived path. -/
theorem claim_C2_code_eval :
    run_select_path { listen := none, scope := "user" }
        { xdg_runtime_dir := some "/run/user/1000", uid := 1000 } =
      .ok { path := none, listen_path := some "/run/user/1000/bus" } ∧
    user_scope_derived_path { xdg_runtime_dir := none, uid := 1000 } =
      "/var/run/user/1000/bus" ∧
    run_listen_dispatch { path := none, listen_path := some "/run/user/1000/bus" } =
      .nullDeref := by
  exact ⟨rfl, rfl, rfl⟩

/-- Claim C3 (counterexample): on a Manager holding one service, the
teardown steps of `manager_free`, projected to the four kinds the claim
orders, are not in the claimed order (regular connection, controller
connection, listener, registry). -/
theorem claim_C3_counterexample :
    ((manager_free_trace (some
        { services := [{ id := "1", name := "com.example.Foo",
                         unit := some "foo.service", exec := none }],
          service_ids := 1 })).map stepKind).filter
        (fun k => !(k == TeardownKind.unrefEvent)) ≠
      spec_claimed_teardown_order := by
  decide

/-- Claim C3 (amended): `manager_free` tears down in exactly the opposite
discipline: it first releases every registry entry, then closes the
listener descriptor, then the regular connection, then the controller
connection, and finally drops the event-loop reference; freeing a NULL
manager performs no step. -/
theorem claim_C3_amended_order (m : ManagerState) :
    (manager_free_trace (some m)).map stepKind =
        List.replicate m.services.length TeardownKind.dropRegistry ++
          [TeardownKind.closeListener, TeardownKind.closeRegular,
            TeardownKind.closeController, TeardownKind.unrefEvent] ∧
    manager_free_trace none = [] := by
  refine ⟨?_, rfl⟩
  simp only [manager_free_trace, List.map_append, List.map_map, List.map_cons,
    List.map_nil, Function.comp_def, stepKind]
  congr 1
  exact List.map_const' m.services TeardownKind.dropRegistry

/-- Claim C4 (counterexample): a child that exited normally with status 5
does not surface as launcher exit status 5 in either listener
configuration: with a path-bound listener and a clean unlink of the socket
path the launcher exits 0, and with an inherited listener it exits 1. -/
theorem claim_C4_counterexample :
    launcher_exit_status { si_code := CLD_EXITED, si_status := 5 } true none = 0 ∧
    launcher_exit_status { si_code := CLD_EXITED, si_status := 5 } false none = 1 ∧
    launcher_exit_status { si_code := CLD_EXITED, si_status := 5 } true none ≠ 5 ∧
    launcher_exit_status { si_code := CLD_EXITED, si_status := 5 } false none ≠ 5 := by
  decide

/-- Claim C4 (amended): the child's exit status is propagated only as the
event loop's exit code — `manager_on_child_exit` stops the loop with the
child's status on CLD_EXITED and with EXIT_FAILURE (1) on any other
termination mode.  The launcher's own process exit status does not carry
it: with an inherited listener it is 0 exactly when the child exited
normally with status 0 and 1 in every other case, while with a path-bound
listener `run()` overwrites the result with the unlink of the socket path,
so the launcher exits 0 on a clean unlink regardless of how the child
terminated, and 1 when the unlink fails with a real errno. -/
theorem claim_C4_amended (si : SigInfo) (e : Nat) :
    manager_on_child_exit si =
        (if si.si_code = CLD_EXITED then si.si_status else 1) ∧
    launcher_exit_status si false none =
        (if si.si_code = CLD_EXITED ∧ si.si_status = 0 then 0 else 1) ∧
    launcher_exit_status si true none = 0 ∧
    (0 < e → launcher_exit_status si true (some e) = 1) := by
  obtain ⟨c, s⟩ := si
  refine ⟨rfl, ?_, rfl, ?_⟩
  · simp only [launcher_exit_status, run_exit, manager_on_child_exit,
      manager_run_exit, main_exit_status, MAIN_EXIT, MAIN_FAILED]
    by_cases hc : c = CLD_EXITED
    all_goals by_cases hs : s = 0
    all_goals simp [hc, hs]
    all_goals omega
  · intro he
    have hc : ¬((-(e : Int)) = 0 ∨ (-(e : Int)) = 1) := by
      rintro (h | h)
      all_goals omega
    have hr : launcher_exit_status { si_code := c, si_status := s } true (some e) =
        main_exit_status (-(e : Int)) := rfl
    rw [hr]
    show (if (-(e : Int)) = 0 ∨ (-(e : Int)) = 1 then 0 else 1) = 1
    rw [if_neg hc]

/-- Witness for the amended C4 at a concrete input: a child killed before
exiting normally, a path-bound listener, and an unlink failing with
errno 13. -/
theorem claim_C4_witness :
    manager_on_child_exit { si_code := 9, si_status := 11 } =
        (if (9 : Nat) = CLD_EXITED then 11 else 1) ∧
    launcher_exit_status { si_code := 9, si_status := 11 } false none =
        (if (9 : Nat) = CLD_EXITED ∧ (11 : Nat) = 0 then 0 else 1) ∧
    launcher_exit_status { si_code := 9, si_status := 11 } true none = 0 ∧
    launcher_exit_status { si_code := 9, si_status := 11 } true (some 13) = 1 := by
  obtain ⟨h1, h2, h3, h4⟩ := claim_C4_amended { si_code := 9, si_status := 11 } 13
  exact ⟨h1, h2, h3, h4 (by decide)⟩

/-- Claim C5: for a service named `name` with non-empty exec list `exec`,
the transient-unit-start call has unit name `dbus-<name>.service`, mode
`fail`, exactly one property `ExecStart` whose value is the one-element
list `(exec[0], exec, true)`, followed by an empty auxiliary-units list. -/
theorem claim_C5 (name : String) (exec : List String) (h : exec ≠ []) :
    manager_start_transient_unit name exec =
      { unit := "dbus-" ++ name ++ ".service"
      , mode := "fail"
      , properties := [("ExecStart",
          [{ path := exec.head h, argv := exec, ignore_failure := true }])]
      , aux := [] } := by
  cases exec with
  | nil => exact absurd rfl h
  | cons a l => rfl

/-- Witness for C5 at the spec's own example: name `foo`,
exec `["/bin/x", "--a"]`. -/
theorem claim_C5_witness :
    manager_start_transient_unit "foo" ["/bin/x", "--a"] =
      { unit := "dbus-foo.service"
      , mode := "fail"
      , properties := [("ExecStart",
          [{ path := "/bin/x", argv := ["/bin/x", "--a"], ignore_failure := true }])]
      , aux := [] } :=
  claim_C5 "foo" ["/bin/x", "--a"] (List.cons_ne_nil _ _)

/-- Claim C6: registering N well-formed definitions in sequence on a fresh
Manager yields exactly N entries whose ids are the decimal strings of
1..N in registration order, the ids are pairwise distinct (never reused),
and the counter has advanced to N. -/
theorem claim_C6 (defs : List (String × Option String × Option (List String))) :
    (register_all manager_new defs).services.map (fun s => s.id) =
        (List.range defs.length).map (fun i => sprintf_u64 (i + 1)) ∧
    (register_all manager_new defs).services.length = defs.length ∧
    ((register_all manager_new defs).services.map (fun s => s.id)).Nodup ∧
    (register_all manager_new defs).service_ids = defs.length := by
  obtain ⟨h1, h2⟩ := register_all_characterisation defs manager_new
  have hids : (register_all manager_new defs).services.map (fun s => s.id) =
      (List.range defs.length).map (fun i => sprintf_u64 (i + 1)) := by
    rw [h1]
    simp only [manager_new, List.map_nil, List.nil_append]
    apply List.map_congr_left
    intro i _
    congr 1
    omega
  refine ⟨hids, ?_, ?_, ?_⟩
  · have := congrArg List.length hids
    simpa using this
  · rw [hids]
    refine List.Nodup.map ?_ (List.nodup_range defs.length)
    intro a b hab
    have := sprintf_u64_injective hab
    omega
  · rw [h2]
    simp [manager_new]

/-- Claim C7: an activation request whose id is absent from the registry,
or whose service is named with the service manager's own identity
`org.freedesktop.systemd1`, sends nothing on the regular link and returns
success; the absent-id case prints the diagnostic, the self-activation
case is silent. -/
theorem claim_C7 (m : ManagerState) (id : String)
    (h : service_lookup m id = none ∨
      ∃ s, service_lookup m id = some s ∧ s.name = "org.freedesktop.systemd1") :
    (manager_on_name_activate m id).sent = [] ∧
    (manager_on_name_activate m id).ret = 0 ∧
    (manager_on_name_activate m id).logged = (service_lookup m id).isNone := by
  rcases h with h | ⟨s, hs, hn⟩
  · simp [manager_on_name_activate, h]
  · simp [manager_on_name_activate, hs, hn]

/-- Witness for C7: the fresh Manager's empty registry with id `7`. -/
theorem claim_C7_witness :
    (manager_on_name_activate manager_new "7").sent = [] ∧
    (manager_on_name_activate manager_new "7").ret = 0 ∧
    (manager_on_name_activate manager_new "7").logged =
      (service_lookup manager_new "7").isNone :=
  claim_C7 manager_new "7" (Or.inl rfl)

/-- Claim C8: for every inbound environment mapping, exactly one
`SetEnvironment` call is produced, its argument the `key=value` strings in
the mapping's wire order, sent fire-and-forget. -/
theorem claim_C8 (env : List (String × String)) :
    manager_on_set_activation_environment env =
      [{ msg := .setEnvironment (env.map (fun kv => kv.1 ++ "=" ++ kv.2))
       , awaitsReply := false }] := by
  have hargs : ∀ l : List (String × String),
      set_env_assignments l = l.map (fun kv => kv.1 ++ "=" ++ kv.2) := by
    intro l
    induction l with
    | nil => rfl
    | cons kv rest ih => simp [set_env_assignments, ih]
  simp [manager_on_set_activation_environment, hargs]

/-- Claim C9 (counterexample): a well-formed definition supplying both a
unit and an exec list is constructed into a Service carrying both — the
load path only rejects definitions supplying neither. -/
theorem claim_C9_counterexample :
    manager_load_service manager_new
        { loadable := true, name := some "com.example.Both", user := none,
          unit := some "both.service", exec := some ["/bin/b"] } =
      ({ services := [{ id := "1", name := "com.example.Both",
                        unit := some "both.service", exec := some ["/bin/b"] }],
         service_ids := 1 },
       .registered { id := "1", name := "com.example.Both",
                     unit := some "both.service", exec := some ["/bin/b"] }) := by
  decide

/-- Claim C9 (amended): a definition supplying neither unit nor exec is
rejected at load time (no Service constructed, registry unchanged, load
continues), and every Service constructed at load time has at least one of
unit and exec — but not necessarily exactly one. -/
theorem claim_C9_amended (m : ManagerState) (f : ServiceFile) :
    (f.loadable = true → f.name ≠ none → f.unit = none → f.exec = none →
      manager_load_service m f = (m, .skippedMissingUnitExec)) ∧
    (∀ m2 s, manager_load_service m f = (m2, .registered s) →
      (s.unit ≠ none ∨ s.exec ≠ none)) := by
  obtain ⟨l, nmo, u, un, ex⟩ := f
  constructor
  · intro hl hn hu he
    cases nmo with
    | none => exact absurd rfl hn
    | some nm =>
      simp only at hl hu he
      subst hl hu he
      rfl
  · intro m2 s h
    cases l with
    | false => simp [manager_load_service] at h
    | true =>
      cases nmo with
      | none => simp [manager_load_service] at h
      | some nm =>
        by_cases hb : un = none ∧ ex = none
        · simp [manager_load_service, hb] at h
        · simp only [manager_load_service, hb, if_false, reduceIte] at h
          have hs : s = (service_new m nm un ex).2 := by
            have := congrArg Prod.snd h
            simp at this
            exact this.symm
          rw [hs]
          simp only [service_new]
          tauto

/-- Witness for C9: a definition with neither unit nor exec is skipped
leaving the fresh registry unchanged, and a unit-only definition is
constructed with its unit present. -/
theorem claim_C9_witness :
    manager_load_service manager_new
        { loadable := true, name := some "com.example.Empty", user := none,
          unit := none, exec := none } =
      (manager_new, .skippedMissingUnitExec) ∧
    ((({ id := "1", name := "com.example.U", unit := some "u.service",
         exec := none } : Service).unit ≠ none) ∨
      (({ id := "1", name := "com.example.U", unit := some "u.service",
          exec := none } : Service).exec ≠ none)) :=
  ⟨(claim_C9_amended manager_new
      { loadable := true, name := some "com.example.Empty", user := none,
        unit := none, exec := none }).1 rfl (by simp) rfl rfl,
   (claim_C9_amended manager_new
      { loadable := true, name := some "com.example.U", user := none,
        unit := some "u.service", exec := none }).2
      { services := [{ id := "1", name := "com.example.U",
                       unit := some "u.service", exec := none }], service_ids := 1 }
      { id := "1", name := "com.example.U", unit := some "u.service", exec := none }
      (by decide)⟩

/-- Claim C10: activating a registered service that carries both a unit and
an exec list emits exactly one `ActivationRequest` notification naming the
unit and zero transient-unit-start calls: the unit branch takes precedence
whenever the unit field is set. -/
theorem claim_C10 (m : ManagerState) (id : String) (s : Service) (u : String)
    (h1 : service_lookup m id = some s)
    (h2 : s.name ≠ "org.freedesktop.systemd1")
    (h3 : s.unit = some u)
    (_h4 : s.exec ≠ none) :
    manager_on_name_activate m id =
      { sent := [{ msg := .activationRequest u, awaitsReply := false }]
      , ret := 0, logged := false } := by
  simp [manager_on_name_activate, h1, h2, h3, manager_request_activation]

/-- Witness for C10: a one-entry registry whose service carries both
`both.service` and an exec list. -/
theorem claim_C10_witness :
    manager_on_name_activate
        { services := [{ id := "1", name := "com.example.Both",
                         unit := some "both.service", exec := some ["/bin/b"] }],
          service_ids := 1 }
        "1" =
      { sent := [{ msg := .activationRequest "both.service", awaitsReply := false }]
      , ret := 0, logged := false } :=
  claim_C10
    { services := [{ id := "1", name := "com.example.Both",
                     unit := some "both.service", exec := some ["/bin/b"] }],
      service_ids := 1 }
    "1"
    { id := "1", name := "com.example.Both", unit := some "both.service",
      exec := some ["/bin/b"] }
    "both.service"
    rfl (by decide) rfl (by decide)

end DBusLaunch
